import Mathlib

/-!
# Verification of the resilient Oracle pool, repository and unit of work

Shallow embedding of `app/infrastructure/db/oracle.py`,
`app/infrastructure/repositories/user_repository_oracle.py` and
`app/application/unit_of_work.py`.

External driver behaviour (what `oracledb.create_pool`, `pool.acquire()`,
`cursor.execute`, `commit`, `rollback`, `close` do on a given call) is supplied
as explicit environment data; the control flow of the Python functions is
translated line by line.
-/

namespace FastapiTemplate

/-- Oracle driver error payload: `exc.args[0]` of a driver exception.
`code` models `getattr(err, "code", None)`.  `message` models
`getattr(err, "message", <default>)`: `none` = attribute absent (Python falls
back to `str(exc)`), `some none` = attribute present but `None`,
`some (some m)` = attribute present with string value `m`. -/
structure OraErr where
  code : Option Int
  message : Option (Option String)
deriving DecidableEq

/-- A raised Python exception as observed by `is_connection_error` /
`_extract_error_info`: whether it is an `oracledb.DatabaseError` or
`oracledb.InterfaceError`, its first `args` element (if any), and `str(exc)`. -/
structure Exc where
  isDbOrInterfaceError : Bool
  argsHead : Option OraErr
  strRepr : String
deriving DecidableEq

/-- `_extract_error_info` (oracle.py lines 11-19): returns `(code, message)`;
`message` may be `none` when `args[0].message` is present but `None`. -/
def extract_error_info (exc : Exc) : Option Int × Option String :=
  match exc.argsHead with
  | none => (none, some exc.strRepr)
  | some err =>
    (err.code,
     match err.message with
     | none => some exc.strRepr
     | some m => m)

/-- The fixed connection-fault code allow-list (oracle.py line 26). -/
def conn_codes : List Int := [3113, 3114, 1012, 12514, 12541, 12545, 12537, 12547]

/-- `bs` starts with `as` (character lists). -/
def listStartsWith : List Char → List Char → Bool
  | [], _ => true
  | _ :: _, [] => false
  | a :: as, b :: bs => a == b && listStartsWith as bs

/-- `sub` occurs as a contiguous subsequence of `l` (character lists). -/
def listContainsSeq (sub : List Char) : List Char → Bool
  | [] => sub.isEmpty
  | c :: t => listStartsWith sub (c :: t) || listContainsSeq sub t

/-- Python substring test `sub in s`. -/
def strContains (s sub : String) : Bool := listContainsSeq sub.toList s.toList

/-- Python `s.upper()` on the characters of `s`. -/
def upperStr (s : String) : List Char := s.toList.map Char.toUpper

/-- The message-pattern fallback of the classifier (oracle.py line 31), applied
to the upper-cased message characters. -/
def msgHasConnSignature (msg : List Char) : Bool :=
  listContainsSeq "DPI-".toList msg || listContainsSeq "DPY-".toList msg ||
  listContainsSeq "ORA-125".toList msg || listContainsSeq "ORA-03113".toList msg ||
  listContainsSeq "ORA-03114".toList msg || listContainsSeq "ORA-01012".toList msg

/-- `is_connection_error` (oracle.py lines 22-33): only driver errors
(`DatabaseError` / `InterfaceError`) qualify; then the code allow-list, then the
upper-cased-message pattern fallback (`(message or "").upper()`). -/
def is_connection_error (exc : Exc) : Bool :=
  if exc.isDbOrInterfaceError then
    let ci := extract_error_info exc
    if (match ci.1 with
        | some c => conn_codes.contains c
        | none => false) then
      true
    else
      msgHasConnSignature (upperStr (ci.2.getD ""))
  else
    false

/-! ## Pool lifecycle state

`PoolState` models `OraclePool._pool` (`pool`), together with bookkeeping of
which underlying driver pool handles have been created and not yet closed
(`live`), and a counter supplying fresh handle identities (`next`).  Handles
are identified by the `Nat` at which they were created. -/

structure PoolState where
  pool : Option Nat
  live : List Nat
  next : Nat
deriving DecidableEq

/-- A freshly constructed `OraclePool`: `self._pool = None`, no driver pool
handle created yet. -/
def initPool : PoolState := { pool := none, live := [], next := 0 }

/-- `connect()` succeeding (oracle.py lines 67-80): `oracledb.create_pool`
creates a new handle and `self._pool` is overwritten with it.  Note that an
existing old handle is not closed by `connect`. -/
def connectOkStep (s : PoolState) : PoolState :=
  { pool := some s.next, live := s.live ++ [s.next], next := s.next + 1 }

/-- `connect()` failing (oracle.py lines 81-84): `self._pool = None` and the
exception is re-raised; no new handle was created. -/
def connectFailStep (s : PoolState) : PoolState := { s with pool := none }

/-- `_safe_close_pool` (oracle.py lines 86-95): if a handle exists, close it
(errors during the close are logged and suppressed) and null out `self._pool`;
otherwise do nothing. -/
def safeClosePool (s : PoolState) : PoolState :=
  match s.pool with
  | none => s
  | some h => { pool := none, live := s.live.erase h, next := s.next }

/-- `close()` (oracle.py lines 130-131): delegates to `_safe_close_pool`. -/
def closePool (s : PoolState) : PoolState := safeClosePool s

/-! ## The `acquire` retry loop (oracle.py lines 97-128)

The behaviour of the external driver on each loop iteration is supplied by an
`AttemptEnv`: what `oracledb.create_pool` does if `connect()` is invoked on
that iteration, and what `self._pool.acquire()` does if it is reached. -/

/-- Outcome of `oracledb.create_pool` on one iteration. -/
inductive ConnectOutcome
  | ok
  | err (e : Exc)
deriving DecidableEq

/-- Outcome of `self._pool.acquire()` on one iteration: a connection
(identified by a `Nat`) or a raised exception. -/
inductive HandleAcquireOutcome
  | ok (c : Nat)
  | err (e : Exc)
deriving DecidableEq

/-- Driver behaviour for one iteration of the retry loop. -/
structure AttemptEnv where
  connect : ConnectOutcome
  handleAcq : HandleAcquireOutcome
deriving DecidableEq

/-- Observable events of the retry loop, in program order. -/
inductive PoolEvent
  | attemptStart
  | connectCall
  | handleAcquireCall
  | resetCall
  | sleepCall
deriving DecidableEq

/-- Result of `OraclePool.acquire`: a connection, a
`DatabaseUnavailableError` (modelled from the spec:
`app.infrastructure.db.errors.DatabaseUnavailableError` is absent from the
sources; per the spec it is the typed "database unavailable" condition and
`cause` is the chained original exception, `none` for the final
"unknown state" raise that chains nothing), or a re-raised original
exception. -/
inductive AcquireResult
  | conn (c : Nat)
  | dbUnavailable (cause : Option Exc)
  | raised (e : Exc)
deriving DecidableEq

/-- One iteration of the `for attempt in range(...)` body up to the point where
a connection is returned or an exception lands in the `except` block
(oracle.py lines 107-111): lazily `connect()` when `self._pool is None`, then
`self._pool.acquire()`. -/
def attemptOnce (s : PoolState) (a : AttemptEnv) :
    PoolState × Except Exc Nat × List PoolEvent :=
  match s.pool with
  | none =>
    match a.connect with
    | .err e => (connectFailStep s, .error e, [.connectCall])
    | .ok =>
      let s1 := connectOkStep s
      match a.handleAcq with
      | .ok c => (s1, .ok c, [.connectCall, .handleAcquireCall])
      | .err e => (s1, .error e, [.connectCall, .handleAcquireCall])
  | some _ =>
    match a.handleAcq with
    | .ok c => (s, .ok c, [.handleAcquireCall])
    | .err e => (s, .error e, [.handleAcquireCall])

/-- The retry loop of `acquire` with `remaining` iterations left (oracle.py
lines 106-124).  A connection-level exception triggers `_safe_close_pool`
and, when iterations remain, a sleep and the next iteration; on the last
iteration it raises `DatabaseUnavailableError` chaining the cause.  Any other
exception is re-raised as is.  `remaining = 0` is the unreachable fall-through
after the loop (oracle.py lines 125-128, reachable only for a negative
`retry_attempts`): `last_exc` is `None` there, so it raises the cause-less
`DatabaseUnavailableError("... (unknown state)")`. -/
def acquireGo (env : Nat → AttemptEnv) (idx : Nat) (remaining : Nat)
    (s : PoolState) : AcquireResult × PoolState × List PoolEvent :=
  match remaining with
  | 0 => (.dbUnavailable none, s, [])
  | r + 1 =>
    match attemptOnce s (env idx) with
    | (s1, .ok c, ev) => (.conn c, s1, .attemptStart :: ev)
    | (s1, .error e, ev) =>
      if is_connection_error e then
        let s2 := safeClosePool s1
        match r with
        | 0 => (.dbUnavailable (some e), s2, .attemptStart :: ev ++ [.resetCall])
        | _ + 1 =>
          match acquireGo env (idx + 1) r s2 with
          | (res3, s3, ev3) =>
            (res3, s3, (.attemptStart :: ev ++ [.resetCall, .sleepCall]) ++ ev3)
      else
        (.raised e, s1, .attemptStart :: ev)

/-- `OraclePool.acquire` (oracle.py lines 97-128):
`total_tries = 1 + retry_attempts`. -/
def acquire (env : Nat → AttemptEnv) (retry_attempts : Nat) (s : PoolState) :
    AcquireResult × PoolState × List PoolEvent :=
  acquireGo env 0 (retry_attempts + 1) s

/-- Occurrence count of an event in a trace. -/
def countEvt {α : Type} [DecidableEq α] (ev : α) : List α → Nat
  | [] => 0
  | e :: t => (if e = ev then 1 else 0) + countEvt ev t

/-! ## Repository (user_repository_oracle.py)

External behaviour of the acquired connection is supplied as environment
data; the `try`/`except`/`finally` control flow is translated directly. -/

/-- Modelled from the spec: `app.domain.models.User` is absent from the
sources; §3 of the spec gives `{id: integer identity, username: string,
email: string}`. -/
structure User where
  id : Int
  username : String
  email : String
deriving DecidableEq

/-- Result of a repository operation: a value, the typed
`DatabaseUnavailableError` chaining the original cause, or a re-raised
original exception (modelled from the spec for the absent
`app.infrastructure.db.errors` module, as in `AcquireResult`). -/
inductive RepoResult (α : Type)
  | ok (a : α)
  | dbUnavailable (cause : Exc)
  | raised (e : Exc)
deriving DecidableEq

/-- Observable events of a repository operation, in program order. -/
inductive RepoEvent
  | poolAcquireCall
  | insertExecCall
  | commitCall
  | maxQueryCall
  | queryExecCall
  | poolCloseCall
  | connCloseCall
deriving DecidableEq

/-- The `TypeError` raised by Python's `int(...)` on a list or on `None`
(user_repository_oracle.py line 27): not an `oracledb` error type. -/
def typeErrorExc : Exc :=
  { isDbOrInterfaceError := false, argsHead := none,
    strRepr := "TypeError: int() argument must not be a list or NoneType" }

/-- External behaviour of the database call inside `create_user`.
`outParamRid` is the value the driver wrote into the `RETURNING id INTO :rid`
bind variable created by `cur.var(int)` (line 18); `implicitResults` is what
`cur.getimplicitresults()` returns (line 20) — a list of result sets, empty
for a plain INSERT; `maxQuery` is the `SELECT MAX(id)` fallback outcome
(lines 23-26), with `ok none` a NULL aggregate over an empty table;
`closeRaises` is whether `conn.close()` in the `finally` raises (line 36). -/
structure CreateEnv where
  insertExec : Option Exc
  outParamRid : Int
  implicitResults : List Unit
  commitRaises : Option Exc
  maxQuery : Except Exc (Option Int)
  closeRaises : Bool

/-- The `except Exception` block shared by both repository operations
(user_repository_oracle.py lines 28-33 and 49-53): a connection-level error
closes the whole pool and becomes `DatabaseUnavailableError` chaining the
cause; anything else is re-raised unchanged. -/
def handleRepoErr {α : Type} (pool : PoolState) (e : Exc) (evs : List RepoEvent) :
    RepoResult α × PoolState × List RepoEvent :=
  if is_connection_error e then
    (.dbUnavailable e, closePool pool, evs ++ [.poolCloseCall])
  else
    (.raised e, pool, evs)

/-- The `finally: try: conn.close() except Exception: pass` step
(user_repository_oracle.py lines 34-38 and 54-58): a raising `conn.close()`
is swallowed and the pending result is left untouched. -/
def suppressClose {α : Type} (closeRaised : Bool) (res : RepoResult α) : RepoResult α :=
  match closeRaised with
  | true => res
  | false => res

/-- The `try` body of `create_user` (user_repository_oracle.py lines 14-33):
INSERT, `rid = cur.getimplicitresults()`, commit, `if not rid:` fallback to
`SELECT MAX(id)`, then `User(id=int(rid), ...)` — where `int(rid)` raises
`TypeError` when `rid` is a nonempty list of result sets or `None`. -/
def create_user_body (pool : PoolState) (env : CreateEnv) (username email : String) :
    RepoResult User × PoolState × List RepoEvent :=
  match env.insertExec with
  | some e => handleRepoErr pool e [.insertExecCall]
  | none =>
    match env.commitRaises with
    | some e => handleRepoErr pool e [.insertExecCall, .commitCall]
    | none =>
      if env.implicitResults.isEmpty then
        match env.maxQuery with
        | .error e => handleRepoErr pool e [.insertExecCall, .commitCall, .maxQueryCall]
        | .ok none =>
          handleRepoErr pool typeErrorExc [.insertExecCall, .commitCall, .maxQueryCall]
        | .ok (some n) =>
          (.ok { id := n, username := username, email := email }, pool,
           [.insertExecCall, .commitCall, .maxQueryCall])
      else
        handleRepoErr pool typeErrorExc [.insertExecCall, .commitCall]

/-- `OracleUserRepository.create_user` (user_repository_oracle.py lines 12-38):
`conn = self._pool.acquire()` happens before the `try`, so an acquire failure
propagates with no classification and no `conn.close()`. -/
def create_user (pool : PoolState) (acq : Except Exc Nat) (env : CreateEnv)
    (username email : String) : RepoResult User × PoolState × List RepoEvent :=
  match acq with
  | .error e => (.raised e, pool, [.poolAcquireCall])
  | .ok _ =>
    match create_user_body pool env username email with
    | (res, p1, evs) =>
      (suppressClose env.closeRaises res, p1,
       .poolAcquireCall :: evs ++ [.connCloseCall])

/-- External behaviour of the database call inside `get_user`: the SELECT
either raises or yields `fetchone()`'s row — `none` when no row matched. -/
structure GetEnv where
  queryExec : Except Exc (Option (Int × String × String))
  closeRaises : Bool

/-- The `try` body of `get_user` (user_repository_oracle.py lines 42-53). -/
def get_user_body (pool : PoolState) (env : GetEnv) :
    RepoResult (Option User) × PoolState × List RepoEvent :=
  match env.queryExec with
  | .error e => handleRepoErr pool e [.queryExecCall]
  | .ok none => (.ok none, pool, [.queryExecCall])
  | .ok (some (i, u, em)) =>
    (.ok (some { id := i, username := u, email := em }), pool, [.queryExecCall])

/-- `OracleUserRepository.get_user` (user_repository_oracle.py lines 40-58). -/
def get_user (pool : PoolState) (acq : Except Exc Nat) (env : GetEnv)
    (_user_id : Int) : RepoResult (Option User) × PoolState × List RepoEvent :=
  match acq with
  | .error e => (.raised e, pool, [.poolAcquireCall])
  | .ok _ =>
    match get_user_body pool env with
    | (res, p1, evs) =>
      (suppressClose env.closeRaises res, p1,
       .poolAcquireCall :: evs ++ [.connCloseCall])

/-! ## Unit of work (unit_of_work.py) -/

/-- Observable events of a `_Transaction` scope, in program order.
`resetCall` is in the vocabulary so that "the scope performs no reset" is a
statement about traces; `_Transaction` never emits it. -/
inductive UowEvent
  | acquireCall
  | setAutocommitOff
  | commitCall
  | rollbackCall
  | closeCall
  | resetCall
deriving DecidableEq

/-- External behaviour of a `_Transaction` scope: what `self._pool.acquire()`
returns in `__enter__`, and whether `commit()`, `rollback()`, `conn.close()`
raise in `__exit__`. -/
structure UowEnv where
  acquireResult : Except Exc Nat
  commitRaises : Option Exc
  rollbackRaises : Option Exc
  closeRaises : Option Exc

/-- Overall outcome of a `with uow.transaction() as conn:` block. -/
inductive UowResult (α : Type)
  | ok (a : α)
  | raised (e : Exc)
deriving DecidableEq

/-- `with SimpleUnitOfWork.transaction() as conn: body`, i.e. `_Transaction`
(unit_of_work.py lines 17-34) under Python's `with` protocol: `__enter__`
acquires and sets `autocommit = False`; if it raises, the body never runs and
`__exit__` is not called.  `__exit__` commits on a normal exit and rolls back
on an exceptional one, and always calls `conn.close()` in its `finally`; an
exception raised inside `__exit__` (from commit/rollback or from the close)
replaces the pending one, and since `__exit__` returns `None` a body exception
otherwise propagates. -/
def transactionRun {α : Type} (env : UowEnv) (body : Except Exc α) :
    UowResult α × List UowEvent :=
  match env.acquireResult with
  | .error e => (.raised e, [.acquireCall])
  | .ok _ =>
    match body with
    | .ok a =>
      let evs : List UowEvent := [.acquireCall, .setAutocommitOff, .commitCall, .closeCall]
      match env.closeRaises with
      | some ce => (.raised ce, evs)
      | none =>
        match env.commitRaises with
        | some e2 => (.raised e2, evs)
        | none => (.ok a, evs)
    | .error e =>
      let evs : List UowEvent := [.acquireCall, .setAutocommitOff, .rollbackCall, .closeCall]
      match env.closeRaises with
      | some ce => (.raised ce, evs)
      | none =>
        match env.rollbackRaises with
        | some e2 => (.raised e2, evs)
        | none => (.raised e, evs)

/-! ## Pool lifecycle as a transition system

The structural mutations of `OraclePool._pool` are exactly: a successful
`connect()`, a failed `connect()`, `_safe_close_pool` (the reset), and
`close()`; acquiring a connection from a ready handle mutates no lifecycle
state.  `LifeStep` ranges over these steps. -/

inductive LifeStep
  | connectOk
  | connectFail
  | reset
  | closeStep
  | acquireFromHandle
deriving DecidableEq

/-- Effect of one lifecycle step on the pool state, per the source:
`connect` overwrites the handle (success) or nulls it (failure), reset and
close delegate to `_safe_close_pool`, and acquiring from the handle changes
nothing. -/
def applyLifeStep (s : PoolState) : LifeStep → PoolState
  | .connectOk => connectOkStep s
  | .connectFail => connectFailStep s
  | .reset => safeClosePool s
  | .closeStep => closePool s
  | .acquireFromHandle => s

/-- State after running a sequence of lifecycle steps from a fresh pool. -/
def applyTrace (steps : List LifeStep) : PoolState :=
  steps.foldl applyLifeStep initPool

/-- States reachable when `connect` is only invoked while the handle is
absent — which is how the program calls it: `acquire` guards its lazy
`connect()` with `if self._pool is None` (oracle.py line 108), and the
startup `init_pool` (core/di.py) connects a freshly constructed pool. -/
inductive GReach : PoolState → Prop
  | init : GReach initPool
  | connectOk {s : PoolState} : GReach s → s.pool = none → GReach (connectOkStep s)
  | connectFail {s : PoolState} : GReach s → s.pool = none → GReach (connectFailStep s)
  | reset {s : PoolState} : GReach s → GReach (safeClosePool s)
  | closeStep {s : PoolState} : GReach s → GReach (closePool s)

/-- The driver fails the iteration whichever path is taken: `connect`, if
invoked, raises a connection-level error, and `pool.acquire()`, if reached,
raises a connection-level error. -/
def failsConnB (a : AttemptEnv) : Bool :=
  (match a.handleAcq with
   | .err e => is_connection_error e
   | .ok _ => false) &&
  (match a.connect with
   | .err e => is_connection_error e
   | .ok => true)

/-- The exception an iteration starting with an absent handle raises, if
any: the `connect` failure, else the `pool.acquire()` failure. -/
def attemptErrFromNone (a : AttemptEnv) : Option Exc :=
  match a.connect with
  | .err e => some e
  | .ok =>
    match a.handleAcq with
    | .err e => some e
    | .ok _ => none

/-- The exception the first iteration raises from pool state `s`, if any. -/
def firstAttemptErr (s : PoolState) (a : AttemptEnv) : Option Exc :=
  match s.pool with
  | none => attemptErrFromNone a
  | some _ =>
    match a.handleAcq with
    | .err e => some e
    | .ok _ => none

/-- The cause of the final failure when every iteration fails: the exception
of the last iteration (which starts with an absent handle unless it is also
the first). -/
def lastCauseAllFail (s : PoolState) (env : Nat → AttemptEnv) (retry : Nat) :
    Option Exc :=
  if retry = 0 then firstAttemptErr s (env 0) else attemptErrFromNone (env retry)

/-- A connection-level driver failure: `DatabaseError` with code 3113. -/
def connExc : Exc :=
  { isDbOrInterfaceError := true,
    argsHead := some { code := some 3113,
                       message := some (some "ORA-03113: end-of-file on communication channel") },
    strRepr := "ORA-03113" }

/-- A non-connection driver failure: `DatabaseError` with code 904 (invalid
identifier), not in the allow-list and with no connection signature. -/
def badSqlExc : Exc :=
  { isDbOrInterfaceError := true,
    argsHead := some { code := some 904,
                       message := some (some "ORA-00904: invalid identifier") },
    strRepr := "ORA-00904" }

/-- The error raised by the `try` body of `create_user`, if any: the first
of the INSERT execution, the commit, the `int()` TypeError on nonempty
implicit results, the fallback MAX query, and the `int()` TypeError on a NULL
maximum. -/
def createBodyError (env : CreateEnv) : Option Exc :=
  match env.insertExec with
  | some e => some e
  | none =>
    match env.commitRaises with
    | some e => some e
    | none =>
      if env.implicitResults.isEmpty then
        match env.maxQuery with
        | .error e => some e
        | .ok none => some typeErrorExc
        | .ok (some _) => none
      else some typeErrorExc

/-- The error raised by the `try` body of `get_user`, if any. -/
def getBodyError (env : GetEnv) : Option Exc :=
  match env.queryExec with
  | .error e => some e
  | .ok _ => none

/-- A driver that raises `connExc` on every `create_pool` and every
`pool.acquire()` call. -/
def envAllFail : Nat → AttemptEnv :=
  fun _ => { connect := .err connExc, handleAcq := .err connExc }

/-! ## Helper lemmas -/

theorem countEvt_append {α : Type} [DecidableEq α] (x : α) (l1 l2 : List α) :
    countEvt x (l1 ++ l2) = countEvt x l1 + countEvt x l2 := by
  induction l1 with
  | nil => simp [countEvt]
  | cons e t ih => simp [countEvt, ih, Nat.add_assoc]

theorem pool_safeClosePool (s : PoolState) : (safeClosePool s).pool = none := by
  cases hs : s.pool <;> simp [safeClosePool, hs]

theorem suppressClose_id {α : Type} (b : Bool) (r : RepoResult α) :
    suppressClose b r = r := by
  cases b <;> rfl

theorem firstAttemptErr_of_none {s : PoolState} (h : s.pool = none)
    (a : AttemptEnv) : firstAttemptErr s a = attemptErrFromNone a := by
  simp [firstAttemptErr, h]

/-! ## Theorems for the claims -/

/-- C9: an exception that is not one of the driver's `DatabaseError` /
`InterfaceError` types is never classified as connection-level, whatever its
code or message. -/
theorem non_driver_error_never_connection_error (exc : Exc)
    (h : exc.isDbOrInterfaceError = false) : is_connection_error exc = false := by
  simp [is_connection_error, h]

/-- Witness for C9: a non-driver exception carrying the connection-fault code
3113 and a "DPI-"/"ORA-03113" message is still classified `false`. -/
theorem non_driver_error_never_connection_error_w :
    is_connection_error
      { isDbOrInterfaceError := false,
        argsHead := some { code := some 3113,
                           message := some (some "DPI-1080: ORA-03113 lost contact") },
        strRepr := "error" } = false :=
  non_driver_error_never_connection_error _ rfl

/-- C8: `close()` is idempotent — closing twice leaves the same state as
closing once (handle absent) — and is a no-op when the handle is already
absent (the model raises nothing on any close: errors of the underlying
handle close are suppressed inside `_safe_close_pool`). -/
theorem close_idempotent_and_noop_when_absent (s : PoolState) :
    closePool (closePool s) = closePool s ∧
    (closePool s).pool = none ∧
    (s.pool = none → closePool s = s) := by
  refine ⟨?_, pool_safeClosePool s, ?_⟩
  · cases hs : s.pool <;> simp [closePool, safeClosePool, hs]
  · intro hs
    simp [closePool, safeClosePool, hs]

/-- Witness for C8: evaluated on a fresh pool (handle absent) and on a pool
with a live handle. -/
theorem close_idempotent_and_noop_when_absent_w :
    closePool initPool = initPool ∧
    closePool (closePool { pool := some 0, live := [0], next := 1 }) =
      closePool { pool := some 0, live := [0], next := 1 } :=
  ⟨(close_idempotent_and_noop_when_absent initPool).2.2 rfl,
   (close_idempotent_and_noop_when_absent { pool := some 0, live := [0], next := 1 }).1⟩

/-- C4: for a driver-raised error, the classifier returns true whenever the
extracted code is in the allow-list; when no extracted code is in the
allow-list (absent code included), it returns true exactly when the
upper-cased message carries one of the fixed driver-internal-error prefixes
or embedded protocol error numbers. -/
theorem is_connection_error_code_then_message (exc : Exc)
    (hdb : exc.isDbOrInterfaceError = true) :
    (∀ c, (extract_error_info exc).1 = some c → c ∈ conn_codes →
       is_connection_error exc = true) ∧
    ((∀ c, (extract_error_info exc).1 = some c → c ∉ conn_codes) →
       (is_connection_error exc = true ↔
         msgHasConnSignature (upperStr (((extract_error_info exc).2).getD "")) = true)) := by
  constructor
  · intro c hc hmem
    simp [is_connection_error, hdb, hc, hmem]
  · intro hno
    cases hc : (extract_error_info exc).1 with
    | none => simp [is_connection_error, hdb, hc]
    | some c =>
      have hnc := hno c hc
      simp [is_connection_error, hdb, hc, hnc]

/-- Witness for C4: a driver error with allow-list code 12514 is classified
true; a driver error with code 904 and a plain message is classified false,
while one with code 904 but a "DPI-" message is classified true. -/
theorem is_connection_error_code_then_message_w :
    is_connection_error
      { isDbOrInterfaceError := true,
        argsHead := some { code := some 12514,
                           message := some (some "listener does not currently know of service") },
        strRepr := "e" } = true ∧
    (is_connection_error
      { isDbOrInterfaceError := true,
        argsHead := some { code := some 904,
                           message := some (some "ORA-00904: invalid identifier") },
        strRepr := "e" } = true ↔ False) :=
  ⟨(is_connection_error_code_then_message _ rfl).1 12514 rfl (by decide),
   by
    have h := (is_connection_error_code_then_message
      { isDbOrInterfaceError := true,
        argsHead := some { code := some 904,
                           message := some (some "ORA-00904: invalid identifier") },
        strRepr := "e" } rfl).2 (by intro c hc; cases hc; decide)
    rw [h]
    decide⟩

/-- C10: the repository's `finally` swallows a failing `conn.close()`: the
result and pool state of `create_user` / `get_user` do not depend on whether
the release raises. -/
theorem repo_result_independent_of_conn_close_failure (pool : PoolState)
    (acq : Except Exc Nat) (envC : CreateEnv) (envG : GetEnv)
    (u em : String) (uid : Int) (b b' : Bool) :
    create_user pool acq { envC with closeRaises := b } u em =
      create_user pool acq { envC with closeRaises := b' } u em ∧
    get_user pool acq { envG with closeRaises := b } uid =
      get_user pool acq { envG with closeRaises := b' } uid := by
  constructor
  · cases acq with
    | error e => rfl
    | ok c =>
      rcases hb : create_user_body pool envC u em with ⟨res, p1, evs⟩
      have h1 : create_user_body pool { envC with closeRaises := b } u em = (res, p1, evs) := hb
      have h2 : create_user_body pool { envC with closeRaises := b' } u em = (res, p1, evs) := hb
      simp [create_user, h1, h2, suppressClose_id]
  · cases acq with
    | error e => rfl
    | ok c =>
      rcases hb : get_user_body pool envG with ⟨res, p1, evs⟩
      have h1 : get_user_body pool { envG with closeRaises := b } = (res, p1, evs) := hb
      have h2 : get_user_body pool { envG with closeRaises := b' } = (res, p1, evs) := hb
      simp [get_user, h1, h2, suppressClose_id]

theorem acquireGo_one_connfail (env : Nat → AttemptEnv) (idx : Nat)
    (s s1 : PoolState) (e : Exc) (ev : List PoolEvent)
    (hstep : attemptOnce s (env idx) = (s1, .error e, ev))
    (hconn : is_connection_error e = true) :
    acquireGo env idx 1 s =
      (.dbUnavailable (some e), safeClosePool s1,
       .attemptStart :: ev ++ [.resetCall]) := by
  rw [acquireGo, hstep]
  simp [hconn]

theorem acquireGo_succ_connfail (env : Nat → AttemptEnv) (idx r : Nat)
    (s s1 : PoolState) (e : Exc) (ev : List PoolEvent)
    (hstep : attemptOnce s (env idx) = (s1, .error e, ev))
    (hconn : is_connection_error e = true) :
    acquireGo env idx (r + 2) s =
      ((acquireGo env (idx + 1) (r + 1) (safeClosePool s1)).1,
       (acquireGo env (idx + 1) (r + 1) (safeClosePool s1)).2.1,
       (.attemptStart :: ev ++ [.resetCall, .sleepCall]) ++
         (acquireGo env (idx + 1) (r + 1) (safeClosePool s1)).2.2) := by
  rw [acquireGo, hstep]
  simp [hconn]

theorem acquireGo_nonconn (env : Nat → AttemptEnv) (idx r : Nat)
    (s s1 : PoolState) (e : Exc) (ev : List PoolEvent)
    (hstep : attemptOnce s (env idx) = (s1, .error e, ev))
    (hconn : is_connection_error e = false) :
    acquireGo env idx (r + 1) s = (.raised e, s1, .attemptStart :: ev) := by
  rw [acquireGo, hstep]
  simp [hconn]

theorem attemptOnce_allfail (s : PoolState) (a : AttemptEnv)
    (h : failsConnB a = true) :
    ∃ (s1 : PoolState) (e : Exc) (ev : List PoolEvent),
      attemptOnce s a = (s1, .error e, ev) ∧ is_connection_error e = true ∧
      firstAttemptErr s a = some e ∧
      countEvt PoolEvent.connectCall ev = (if s.pool = none then 1 else 0) ∧
      countEvt PoolEvent.attemptStart ev = 0 ∧
      countEvt PoolEvent.resetCall ev = 0 := by
  unfold failsConnB at h
  rw [Bool.and_eq_true] at h
  obtain ⟨h1, h2⟩ := h
  cases hha : a.handleAcq with
  | ok c => rw [hha] at h1; exact absurd h1 (by simp)
  | err e =>
    rw [hha] at h1
    replace h1 : is_connection_error e = true := h1
    cases hs : s.pool with
    | some hdl =>
      exact ⟨s, e, [.handleAcquireCall],
        by simp [attemptOnce, hs, hha], h1,
        by simp [firstAttemptErr, hs, hha],
        by simp [hs, countEvt], by simp [countEvt], by simp [countEvt]⟩
    | none =>
      cases hcn : a.connect with
      | ok =>
        exact ⟨connectOkStep s, e, [.connectCall, .handleAcquireCall],
          by simp [attemptOnce, hs, hcn, hha], h1,
          by simp [firstAttemptErr, attemptErrFromNone, hs, hcn, hha],
          by simp [hs, countEvt], by simp [countEvt], by simp [countEvt]⟩
      | err e2 =>
        rw [hcn] at h2
        replace h2 : is_connection_error e2 = true := h2
        exact ⟨connectFailStep s, e2, [.connectCall],
          by simp [attemptOnce, hs, hcn], h2,
          by simp [firstAttemptErr, attemptErrFromNone, hs, hcn],
          by simp [hs, countEvt], by simp [countEvt], by simp [countEvt]⟩

theorem acquireGo_allfail (env : Nat → AttemptEnv)
    (hfail : ∀ i, failsConnB (env i) = true) :
    ∀ (r idx : Nat) (s : PoolState),
      (acquireGo env idx (r + 1) s).1 =
        AcquireResult.dbUnavailable
          (if r = 0 then firstAttemptErr s (env idx)
           else attemptErrFromNone (env (idx + r))) ∧
      (acquireGo env idx (r + 1) s).2.1.pool = none ∧
      countEvt PoolEvent.attemptStart (acquireGo env idx (r + 1) s).2.2 = r + 1 ∧
      countEvt PoolEvent.resetCall (acquireGo env idx (r + 1) s).2.2 = r + 1 ∧
      countEvt PoolEvent.connectCall (acquireGo env idx (r + 1) s).2.2 =
        r + (if s.pool = none then 1 else 0) := by
  intro r
  induction r with
  | zero =>
    intro idx s
    obtain ⟨s1, e, ev, hstep, hconn, hfae, hevc, heva, hevr⟩ :=
      attemptOnce_allfail s (env idx) (hfail idx)
    rw [acquireGo_one_connfail env idx s s1 e ev hstep hconn]
    refine ⟨by simp [hfae], pool_safeClosePool s1, ?_, ?_, ?_⟩
    · simp [countEvt, countEvt_append, heva]
    · simp [countEvt, countEvt_append, hevr]
    · simp [countEvt, countEvt_append, hevc]
  | succ r ih =>
    intro idx s
    obtain ⟨s1, e, ev, hstep, hconn, hfae, hevc, heva, hevr⟩ :=
      attemptOnce_allfail s (env idx) (hfail idx)
    rw [show r + 1 + 1 = r + 2 from rfl,
        acquireGo_succ_connfail env idx r s s1 e ev hstep hconn]
    obtain ⟨ih1, ih2, ih3, ih4, ih5⟩ := ih (idx + 1) (safeClosePool s1)
    rw [firstAttemptErr_of_none (pool_safeClosePool s1)] at ih1
    refine ⟨?_, ih2, ?_, ?_, ?_⟩
    · show (acquireGo env (idx + 1) (r + 1) (safeClosePool s1)).1 = _
      rw [ih1]
      have hne : ¬ (r + 1 = 0) := by omega
      rw [if_neg hne]
      cases r with
      | zero => simp
      | succ m =>
        have : idx + 1 + (m + 1) = idx + (m + 1 + 1) := by omega
        simp [this]
    · show countEvt PoolEvent.attemptStart _ = _
      rw [countEvt_append]
      simp [countEvt, countEvt_append, heva, ih3]
      omega
    · show countEvt PoolEvent.resetCall _ = _
      rw [countEvt_append]
      simp [countEvt, countEvt_append, hevr, ih4]
      omega
    · show countEvt PoolEvent.connectCall _ = _
      rw [countEvt_append]
      rw [ih5, if_pos (pool_safeClosePool s1)]
      simp [countEvt, countEvt_append, hevc]
      omega

theorem failsConn_firstAttemptErr (s : PoolState) (a : AttemptEnv)
    (h : failsConnB a = true) :
    ∃ e, firstAttemptErr s a = some e ∧ is_connection_error e = true := by
  obtain ⟨s1, e, ev, _, hconn, hfae, _, _, _⟩ := attemptOnce_allfail s a h
  exact ⟨e, hfae, hconn⟩

theorem failsConn_attemptErrFromNone (a : AttemptEnv) (h : failsConnB a = true) :
    ∃ e, attemptErrFromNone a = some e ∧ is_connection_error e = true := by
  obtain ⟨e, hf, hc⟩ := failsConn_firstAttemptErr initPool a h
  rw [firstAttemptErr_of_none rfl] at hf
  exact ⟨e, hf, hc⟩

/-- C2: when the driver fails every iteration with a connection-level error,
`acquire` makes exactly `1 + retry_attempts` attempts, resets the handle
after each failure (so each attempt after the first reconnects lazily from an
absent handle — `retry_attempts` lazy reconnects, one more when the handle
was absent to begin with), leaves the handle absent, and fails with
`DatabaseUnavailableError` chaining the last underlying cause. -/
theorem acquire_exhausts_retries_on_connection_failures (env : Nat → AttemptEnv)
    (retry_attempts : Nat) (s : PoolState)
    (hfail : ∀ i, failsConnB (env i) = true) :
    ∃ e : Exc,
      lastCauseAllFail s env retry_attempts = some e ∧
      is_connection_error e = true ∧
      (acquire env retry_attempts s).1 = .dbUnavailable (some e) ∧
      (acquire env retry_attempts s).2.1.pool = none ∧
      countEvt PoolEvent.attemptStart (acquire env retry_attempts s).2.2 =
        1 + retry_attempts ∧
      countEvt PoolEvent.resetCall (acquire env retry_attempts s).2.2 =
        1 + retry_attempts ∧
      countEvt PoolEvent.connectCall (acquire env retry_attempts s).2.2 =
        retry_attempts + (if s.pool = none then 1 else 0) := by
  obtain ⟨g1, g2, g3, g4, g5⟩ := acquireGo_allfail env hfail retry_attempts 0 s
  rw [Nat.zero_add] at g1
  have hsome : ∃ e, (if retry_attempts = 0 then firstAttemptErr s (env 0)
      else attemptErrFromNone (env retry_attempts)) = some e ∧
      is_connection_error e = true := by
    by_cases hz : retry_attempts = 0
    · rw [if_pos hz]
      exact failsConn_firstAttemptErr s (env 0) (hfail 0)
    · rw [if_neg hz]
      exact failsConn_attemptErrFromNone (env retry_attempts) (hfail retry_attempts)
  obtain ⟨e, he, hce⟩ := hsome
  refine ⟨e, he, hce, ?_, g2, ?_, ?_, g5⟩
  · show (acquireGo env 0 (retry_attempts + 1) s).1 = _
    rw [g1, he]
  · show countEvt PoolEvent.attemptStart
      (acquireGo env 0 (retry_attempts + 1) s).2.2 = 1 + retry_attempts
    rw [g3]
    omega
  · show countEvt PoolEvent.resetCall
      (acquireGo env 0 (retry_attempts + 1) s).2.2 = 1 + retry_attempts
    rw [g4]
    omega

/-- Witness for C2: with `retry_attempts = 2` (the default) and every call
failing with the code-3113 error, acquire from a fresh pool makes 3 attempts,
3 resets, 3 lazy connects, and fails unavailable chaining the last cause. -/
theorem acquire_exhausts_retries_on_connection_failures_w :
    ∃ e : Exc,
      lastCauseAllFail initPool envAllFail 2 = some e ∧
      is_connection_error e = true ∧
      (acquire envAllFail 2 initPool).1 = .dbUnavailable (some e) ∧
      (acquire envAllFail 2 initPool).2.1.pool = none ∧
      countEvt PoolEvent.attemptStart (acquire envAllFail 2 initPool).2.2 = 1 + 2 ∧
      countEvt PoolEvent.resetCall (acquire envAllFail 2 initPool).2.2 = 1 + 2 ∧
      countEvt PoolEvent.connectCall (acquire envAllFail 2 initPool).2.2 =
        2 + (if initPool.pool = none then 1 else 0) :=
  acquire_exhausts_retries_on_connection_failures envAllFail 2 initPool
    (fun _ => rfl)

/-- C3: a failure of the connection request that the classifier marks NOT
connection-level is propagated unchanged after exactly one attempt, with no
reset, no reconnect and the pool state untouched. -/
theorem acquire_propagates_non_connection_error (env : Nat → AttemptEnv)
    (retry_attempts : Nat) (s : PoolState) (hdl : Nat) (e : Exc)
    (hs : s.pool = some hdl) (hha : (env 0).handleAcq = .err e)
    (hnc : is_connection_error e = false) :
    acquire env retry_attempts s =
      (.raised e, s, [.attemptStart, .handleAcquireCall]) := by
  have hstep : attemptOnce s (env 0) = (s, .error e, [.handleAcquireCall]) := by
    simp [attemptOnce, hs, hha]
  show acquireGo env 0 (retry_attempts + 1) s = _
  rw [acquireGo_nonconn env 0 retry_attempts s s e [.handleAcquireCall] hstep hnc]

/-- Witness for C3: a ready pool whose `acquire()` raises the non-connection
ORA-00904 error, with `retry_attempts = 2`. -/
theorem acquire_propagates_non_connection_error_w :
    acquire (fun _ => { connect := .ok, handleAcq := .err badSqlExc }) 2
      { pool := some 0, live := [0], next := 1 } =
      (.raised badSqlExc, { pool := some 0, live := [0], next := 1 },
       [.attemptStart, .handleAcquireCall]) :=
  acquire_propagates_non_connection_error _ 2 _ 0 badSqlExc rfl rfl (by decide)

theorem handleRepoErr_res {α : Type} (pool : PoolState) (e : Exc)
    (evs : List RepoEvent) :
    (handleRepoErr (α := α) pool e evs).1 =
      (if is_connection_error e then .dbUnavailable e else .raised e) := by
  unfold handleRepoErr
  split <;> rfl

theorem handleRepoErr_pool {α : Type} (pool : PoolState) (e : Exc)
    (evs : List RepoEvent) :
    (handleRepoErr (α := α) pool e evs).2.1 =
      (if is_connection_error e then closePool pool else pool) := by
  unfold handleRepoErr
  split <;> rfl

theorem create_user_body_err (pool : PoolState) (env : CreateEnv)
    (u em : String) (e : Exc) (h : createBodyError env = some e) :
    (create_user_body pool env u em).1 =
      (if is_connection_error e then .dbUnavailable e else .raised e) ∧
    (create_user_body pool env u em).2.1 =
      (if is_connection_error e then closePool pool else pool) := by
  unfold createBodyError at h
  unfold create_user_body
  cases h1 : env.insertExec with
  | some e1 =>
    rw [h1] at h
    injection h with h0
    subst h0
    simp only [h1]
    exact ⟨handleRepoErr_res pool e1 _, handleRepoErr_pool pool e1 _⟩
  | none =>
    rw [h1] at h
    cases h2 : env.commitRaises with
    | some e2 =>
      rw [h2] at h
      injection h with h0
      subst h0
      simp only [h1, h2]
      exact ⟨handleRepoErr_res pool e2 _, handleRepoErr_pool pool e2 _⟩
    | none =>
      rw [h2] at h
      cases h3 : env.implicitResults.isEmpty with
      | false =>
        rw [h3] at h
        replace h : some typeErrorExc = some e := h
        injection h with h0
        subst h0
        simp only [h1, h2, h3]
        exact ⟨handleRepoErr_res pool typeErrorExc _,
               handleRepoErr_pool pool typeErrorExc _⟩
      | true =>
        rw [h3] at h
        cases h4 : env.maxQuery with
        | error e3 =>
          rw [h4] at h
          replace h : some e3 = some e := h
          injection h with h0
          subst h0
          simp only [h1, h2, h3, h4]
          exact ⟨handleRepoErr_res pool e3 _, handleRepoErr_pool pool e3 _⟩
        | ok row =>
          rw [h4] at h
          cases row with
          | none =>
            replace h : some typeErrorExc = some e := h
            injection h with h0
            subst h0
            simp only [h1, h2, h3, h4]
            exact ⟨handleRepoErr_res pool typeErrorExc _,
                   handleRepoErr_pool pool typeErrorExc _⟩
          | some n =>
            replace h : (none : Option Exc) = some e := h
            cases h

theorem get_user_body_err (pool : PoolState) (env : GetEnv) (e : Exc)
    (h : getBodyError env = some e) :
    (get_user_body pool env).1 =
      (if is_connection_error e then .dbUnavailable e else .raised e) ∧
    (get_user_body pool env).2.1 =
      (if is_connection_error e then closePool pool else pool) := by
  unfold getBodyError at h
  unfold get_user_body
  cases h1 : env.queryExec with
  | error e1 =>
    rw [h1] at h
    injection h with h0
    subst h0
    simp only [h1]
    exact ⟨handleRepoErr_res pool e1 _, handleRepoErr_pool pool e1 _⟩
  | ok row =>
    rw [h1] at h
    cases h

/-- C5: for both repository operations, a connection-level error raised by
the database call closes the whole pool (handle torn down) and surfaces as
the typed `DatabaseUnavailableError` chaining the original cause; any other
error propagates unchanged with the pool untouched; and on every exit path
with an acquired connection, `conn.close()` is invoked. -/
theorem repo_classifies_failures_and_releases (pool : PoolState) (c : Nat)
    (envC : CreateEnv) (envG : GetEnv) (u em : String) (uid : Int) :
    (∀ e, createBodyError envC = some e → is_connection_error e = true →
       (create_user pool (.ok c) envC u em).1 = .dbUnavailable e ∧
       (create_user pool (.ok c) envC u em).2.1 = closePool pool ∧
       (create_user pool (.ok c) envC u em).2.1.pool = none) ∧
    (∀ e, createBodyError envC = some e → is_connection_error e = false →
       (create_user pool (.ok c) envC u em).1 = .raised e ∧
       (create_user pool (.ok c) envC u em).2.1 = pool) ∧
    RepoEvent.connCloseCall ∈ (create_user pool (.ok c) envC u em).2.2 ∧
    (∀ e, getBodyError envG = some e → is_connection_error e = true →
       (get_user pool (.ok c) envG uid).1 = .dbUnavailable e ∧
       (get_user pool (.ok c) envG uid).2.1 = closePool pool ∧
       (get_user pool (.ok c) envG uid).2.1.pool = none) ∧
    (∀ e, getBodyError envG = some e → is_connection_error e = false →
       (get_user pool (.ok c) envG uid).1 = .raised e ∧
       (get_user pool (.ok c) envG uid).2.1 = pool) ∧
    RepoEvent.connCloseCall ∈ (get_user pool (.ok c) envG uid).2.2 := by
  rcases hbc : create_user_body pool envC u em with ⟨resC, pC, evsC⟩
  rcases hbg : get_user_body pool envG with ⟨resG, pG, evsG⟩
  refine ⟨?_, ?_, ?_, ?_, ?_, ?_⟩
  · intro e he hc
    obtain ⟨hr1, hr2⟩ := create_user_body_err pool envC u em e he
    rw [hbc] at hr1 hr2
    simp only [hc, if_pos] at hr1 hr2
    refine ⟨?_, ?_, ?_⟩
    · simp [create_user, hbc, suppressClose_id, hr1]
    · simp [create_user, hbc, hr2]
    · simp [create_user, hbc, hr2, closePool, pool_safeClosePool]
  · intro e he hc
    obtain ⟨hr1, hr2⟩ := create_user_body_err pool envC u em e he
    rw [hbc] at hr1 hr2
    rw [hc] at hr1 hr2
    simp only [Bool.false_eq_true, if_neg] at hr1 hr2
    constructor
    · simp [create_user, hbc, suppressClose_id, hr1]
    · simp [create_user, hbc, hr2]
  · simp [create_user, hbc]
  · intro e he hc
    obtain ⟨hr1, hr2⟩ := get_user_body_err pool envG e he
    rw [hbg] at hr1 hr2
    simp only [hc, if_pos] at hr1 hr2
    refine ⟨?_, ?_, ?_⟩
    · simp [get_user, hbg, suppressClose_id, hr1]
    · simp [get_user, hbg, hr2]
    · simp [get_user, hbg, hr2, closePool, pool_safeClosePool]
  · intro e he hc
    obtain ⟨hr1, hr2⟩ := get_user_body_err pool envG e he
    rw [hbg] at hr1 hr2
    rw [hc] at hr1 hr2
    simp only [Bool.false_eq_true, if_neg] at hr1 hr2
    constructor
    · simp [get_user, hbg, suppressClose_id, hr1]
    · simp [get_user, hbg, hr2]
  · simp [get_user, hbg]

/-- Witness for C5: a connection-level INSERT failure turns into
`DatabaseUnavailableError` with the pool closed, a `SELECT` failing with the
non-connection ORA-00904 error propagates unchanged, and both operations
release the connection. -/
theorem repo_classifies_failures_and_releases_w :
    (create_user { pool := some 0, live := [0], next := 1 } (.ok 0)
       { insertExec := some connExc, outParamRid := 1, implicitResults := [],
         commitRaises := none, maxQuery := .ok (some 1), closeRaises := false }
       "u" "u@example.com").1 = .dbUnavailable connExc ∧
    (create_user { pool := some 0, live := [0], next := 1 } (.ok 0)
       { insertExec := some connExc, outParamRid := 1, implicitResults := [],
         commitRaises := none, maxQuery := .ok (some 1), closeRaises := false }
       "u" "u@example.com").2.1.pool = none ∧
    (get_user { pool := some 0, live := [0], next := 1 } (.ok 0)
       { queryExec := .error badSqlExc, closeRaises := false } 7).1 =
      .raised badSqlExc ∧
    (get_user { pool := some 0, live := [0], next := 1 } (.ok 0)
       { queryExec := .error badSqlExc, closeRaises := false } 7).2.1 =
      { pool := some 0, live := [0], next := 1 } ∧
    RepoEvent.connCloseCall ∈
      (get_user { pool := some 0, live := [0], next := 1 } (.ok 0)
        { queryExec := .error badSqlExc, closeRaises := false } 7).2.2 := by
  have hc := repo_classifies_failures_and_releases
    { pool := some 0, live := [0], next := 1 } 0
    { insertExec := some connExc, outParamRid := 1, implicitResults := [],
      commitRaises := none, maxQuery := .ok (some 1), closeRaises := false }
    { queryExec := .error badSqlExc, closeRaises := false }
    "u" "u@example.com" 7
  obtain ⟨c1, _, _, _, g2, g3⟩ := hc
  obtain ⟨a1, _, a3⟩ := c1 connExc rfl (by decide)
  obtain ⟨b1, b2⟩ := g2 badSqlExc rfl (by decide)
  exact ⟨a1, a3, b1, b2, g3⟩

/-- C6: a unit-of-work scope commits exactly once and rolls back never on a
normal body exit (returning the body's value when commit and close do not
themselves raise), rolls back exactly once and commits never on an error
exit (propagating the body's error when rollback and close do not raise),
releases the scoped connection exactly once either way, and performs no
retry (a single acquire) and no pool reset. -/
theorem uow_commit_rollback_release (α : Type) (env : UowEnv) (c : Nat)
    (body : Except Exc α) (hacq : env.acquireResult = .ok c) :
    (∀ a, body = .ok a →
       countEvt UowEvent.commitCall (transactionRun env body).2 = 1 ∧
       countEvt UowEvent.rollbackCall (transactionRun env body).2 = 0 ∧
       countEvt UowEvent.closeCall (transactionRun env body).2 = 1 ∧
       (env.commitRaises = none → env.closeRaises = none →
         (transactionRun env body).1 = .ok a)) ∧
    (∀ e, body = .error e →
       countEvt UowEvent.rollbackCall (transactionRun env body).2 = 1 ∧
       countEvt UowEvent.commitCall (transactionRun env body).2 = 0 ∧
       countEvt UowEvent.closeCall (transactionRun env body).2 = 1 ∧
       (env.rollbackRaises = none → env.closeRaises = none →
         (transactionRun env body).1 = .raised e)) ∧
    countEvt UowEvent.acquireCall (transactionRun env body).2 = 1 ∧
    countEvt UowEvent.resetCall (transactionRun env body).2 = 0 := by
  refine ⟨?_, ?_, ?_, ?_⟩
  · intro a hb
    subst hb
    refine ⟨?_, ?_, ?_, ?_⟩
    · cases hcr : env.closeRaises <;> cases hco : env.commitRaises <;>
        simp [transactionRun, hacq, hcr, hco, countEvt]
    · cases hcr : env.closeRaises <;> cases hco : env.commitRaises <;>
        simp [transactionRun, hacq, hcr, hco, countEvt]
    · cases hcr : env.closeRaises <;> cases hco : env.commitRaises <;>
        simp [transactionRun, hacq, hcr, hco, countEvt]
    · intro h1 h2
      simp [transactionRun, hacq, h1, h2]
  · intro e hb
    subst hb
    refine ⟨?_, ?_, ?_, ?_⟩
    · cases hcr : env.closeRaises <;> cases hro : env.rollbackRaises <;>
        simp [transactionRun, hacq, hcr, hro, countEvt]
    · cases hcr : env.closeRaises <;> cases hro : env.rollbackRaises <;>
        simp [transactionRun, hacq, hcr, hro, countEvt]
    · cases hcr : env.closeRaises <;> cases hro : env.rollbackRaises <;>
        simp [transactionRun, hacq, hcr, hro, countEvt]
    · intro h1 h2
      simp [transactionRun, hacq, h1, h2]
  · cases body <;> cases hcr : env.closeRaises <;>
      cases hco : env.commitRaises <;> cases hro : env.rollbackRaises <;>
      simp [transactionRun, hacq, hcr, hco, hro, countEvt]
  · cases body <;> cases hcr : env.closeRaises <;>
      cases hco : env.commitRaises <;> cases hro : env.rollbackRaises <;>
      simp [transactionRun, hacq, hcr, hco, hro, countEvt]

/-- Witness for C6: a well-behaved environment, evaluated on a normal body
exit and on an erroring body. -/
theorem uow_commit_rollback_release_w :
    (transactionRun
      { acquireResult := .ok 0, commitRaises := none, rollbackRaises := none,
        closeRaises := none } (Except.ok (37 : Nat))).1 = .ok 37 ∧
    countEvt UowEvent.commitCall
      (transactionRun
        { acquireResult := .ok 0, commitRaises := none, rollbackRaises := none,
          closeRaises := none } (Except.ok (37 : Nat))).2 = 1 ∧
    (transactionRun
      { acquireResult := .ok 0, commitRaises := none, rollbackRaises := none,
        closeRaises := none } (Except.error (α := Nat) badSqlExc)).1 =
      .raised badSqlExc ∧
    countEvt UowEvent.rollbackCall
      (transactionRun
        { acquireResult := .ok 0, commitRaises := none, rollbackRaises := none,
          closeRaises := none } (Except.error (α := Nat) badSqlExc)).2 = 1 := by
  have h1 := uow_commit_rollback_release Nat
    { acquireResult := .ok 0, commitRaises := none, rollbackRaises := none,
      closeRaises := none } 0 (Except.ok 37) rfl
  have h2 := uow_commit_rollback_release Nat
    { acquireResult := .ok 0, commitRaises := none, rollbackRaises := none,
      closeRaises := none } 0 (Except.error badSqlExc) rfl
  obtain ⟨k1, -, -, -⟩ := h1
  obtain ⟨-, k2, -, -⟩ := h2
  obtain ⟨c1, -, -, c4⟩ := k1 37 rfl
  obtain ⟨d1, -, -, d4⟩ := k2 badSqlExc rfl
  exact ⟨c4 rfl rfl, c1, d4 rfl rfl, d1⟩

/-- Counterexample for C7 as stated: among arbitrary sequences of connect /
acquire / reset / close steps is `connect(); connect()`, and a `connect()`
invoked while a handle is already live overwrites `self._pool` without
closing the old handle (oracle.py line 71), leaving two live handles. -/
theorem pool_two_live_handles_reachable :
    ¬ (∀ steps : List LifeStep, (applyTrace steps).live.length ≤ 1) :=
  fun h => absurd (h [.connectOk, .connectOk]) (by decide)

/-- C7 (amended): in every state reachable by connect / acquire / reset /
close steps in which `connect` is only invoked while the handle is absent —
as the program invokes it — at most one live handle exists, the live handle
(if any) is exactly the referenced one, and a reset fully closes it: no live
handle survives `_safe_close_pool`, so a subsequent creation starts from
none. -/
theorem pool_single_live_handle_guarded (s : PoolState) (h : GReach s) :
    s.live.length ≤ 1 ∧
    (∀ hdl, s.pool = some hdl → s.live = [hdl]) ∧
    (s.pool = none → s.live = []) ∧
    (safeClosePool s).live = [] := by
  have key : ∀ t : PoolState, GReach t →
      (t.pool = none → t.live = []) ∧
      (∀ hdl, t.pool = some hdl → t.live = [hdl]) := by
    intro t ht
    induction ht with
    | init => exact ⟨fun _ => rfl, fun hdl hc => by cases hc⟩
    | connectOk hG hnone ih =>
      have hl := ih.1 hnone
      constructor
      · intro hc
        simp [connectOkStep] at hc
      · intro hdl hc
        simp only [connectOkStep, Option.some.injEq] at hc
        simp [connectOkStep, hl, hc]
    | connectFail hG hnone ih =>
      have hl := ih.1 hnone
      constructor
      · intro _
        simpa [connectFailStep] using hl
      · intro hdl hc
        simp [connectFailStep] at hc
    | reset hG ih =>
      rename_i t0
      cases hp : t0.pool with
      | none =>
        constructor
        · intro _
          simpa [safeClosePool, hp] using ih.1 hp
        · intro hdl hc
          rw [safeClosePool, hp] at hc
          rw [hp] at hc
          cases hc
      | some hdl =>
        have hl := ih.2 hdl hp
        constructor
        · intro _
          simp [safeClosePool, hp, hl]
        · intro hdl2 hc
          simp [safeClosePool, hp] at hc
    | closeStep hG ih =>
      rename_i t0
      cases hp : t0.pool with
      | none =>
        constructor
        · intro _
          simpa [closePool, safeClosePool, hp] using ih.1 hp
        · intro hdl hc
          rw [closePool, safeClosePool, hp] at hc
          rw [hp] at hc
          cases hc
      | some hdl =>
        have hl := ih.2 hdl hp
        constructor
        · intro _
          simp [closePool, safeClosePool, hp, hl]
        · intro hdl2 hc
          simp [closePool, safeClosePool, hp] at hc
  obtain ⟨k1, k2⟩ := key s h
  refine ⟨?_, k2, k1, ?_⟩
  · cases hp : s.pool with
    | none => simp [k1 hp]
    | some hdl => simp [k2 hdl hp]
  · cases hp : s.pool with
    | none => simpa [safeClosePool, hp] using k1 hp
    | some hdl => simp [safeClosePool, hp, k2 hdl hp]

/-- Witness for C7 (amended): the state after a guarded startup connect. -/
theorem pool_single_live_handle_guarded_w :
    GReach (connectOkStep initPool) ∧
    (connectOkStep initPool).live.length ≤ 1 ∧
    (safeClosePool (connectOkStep initPool)).live = [] := by
  have hg : GReach (connectOkStep initPool) := GReach.connectOk GReach.init rfl
  have h := pool_single_live_handle_guarded (connectOkStep initPool) hg
  exact ⟨hg, h.1, h.2.2.2⟩

/-- C1 is false on the code: `create_user` never reads the `RETURNING id
INTO :rid` output parameter.  The bind variable from `cur.var(int)` is
discarded, and `rid = cur.getimplicitresults()` (line 20) reads the
statement's implicit result sets — empty for a plain INSERT — so the
`SELECT MAX(id)` re-query is used even when the driver supports and
populates the output parameter.  First conjunct: the result is independent
of the value the driver wrote into the output parameter.  Second conjunct:
at a concrete input where the driver wrote 42 into `:rid` but a concurrent
insert makes `MAX(id)` 43, the returned identity is 43, not 42. -/
theorem create_user_identity_via_max_never_returning :
    (∀ (pool : PoolState) (acq : Except Exc Nat) (env : CreateEnv)
       (u em : String) (x : Int),
       create_user pool acq { env with outParamRid := x } u em =
         create_user pool acq env u em) ∧
    (create_user { pool := some 0, live := [0], next := 1 } (.ok 0)
       { insertExec := none, outParamRid := 42, implicitResults := [],
         commitRaises := none, maxQuery := .ok (some 43), closeRaises := false }
       "alice" "alice@example.com").1 =
      .ok { id := 43, username := "alice", email := "alice@example.com" } := by
  constructor
  · intro pool acq env u em x
    rfl
  · rfl

end FastapiTemplate
